import Mathlib

/-!
Verification of the per-column data-quality metric engine
(completeness.py, consistency.py, Accuracy.py).

Cells are modelled as a tagged union: an explicit missing marker
(pandas NaN/NA), an already-numeric value (a rational, standing for the
exact value of a Python int/float), or a string.  Percentages and means
are computed in ℚ; results that pandas leaves as NaN (mean of an empty
series, division by a zero cell count) are modelled as `none`.
Datetime parsing (pandas `to_datetime`) is an external heuristic, so the
classifier is parameterized by an oracle `dtOK : Cell → Bool` saying
which cells parse as datetimes.
-/

namespace DataQuality

/-- A single cell of a column: the missing marker, a numeric value, or a
string value. -/
inductive Cell where
  | missing : Cell
  | num : ℚ → Cell
  | str : String → Cell
deriving DecidableEq, Repr

/-- `series.isna()` for one cell: only the missing marker is NA
(Accuracy.py and consistency.py apply no blank-string normalization). -/
def Cell.isna : Cell → Bool
  | .missing => true
  | _ => false

/-- Storage dtype of a pandas column: numeric (int/float) or object. -/
inductive DType where
  | numericD : DType
  | objectD : DType
deriving DecidableEq, Repr

/-- A column as handed to the metric engine: its storage dtype and its
ordered cells. -/
structure Column where
  dtype : DType
  cells : List Cell
deriving DecidableEq, Repr

/-- A loaded DataFrame: the row count and the columns (each column of a
well-formed frame has `nrows` cells). -/
structure Dataset where
  nrows : ℕ
  cols : List Column
deriving DecidableEq, Repr

/-- A numeric-dtype cell holds a number or the missing marker, never a
string. -/
def Cell.isNumericish : Cell → Bool
  | .missing => true
  | .num _ => true
  | .str _ => false

/-- Well-formed storage: a column whose dtype is numeric contains only
numeric or missing cells. -/
def Column.wfDtype : Column → Bool
  | ⟨DType.numericD, cells⟩ => cells.all Cell.isNumericish
  | ⟨DType.objectD, _⟩ => true

/-! ### Strict numeric coercion (`float(x)` / `pd.to_numeric(errors='coerce')`) -/

/-- Numeric value of one decimal digit character. -/
def digitVal (c : Char) : ℕ := c.toNat - 48

/-- Value of a string of decimal digits (empty list gives 0). -/
def digitsToNat (cs : List Char) : ℕ :=
  cs.foldl (fun a c => a * 10 + digitVal c) 0

/-- Parse an unsigned decimal literal `digits [. digits]`; at least one
digit must be present on one side of the point. -/
def parseUnsigned (cs : List Char) : Option ℚ :=
  let intPart := cs.takeWhile Char.isDigit
  let rest := cs.dropWhile Char.isDigit
  match rest with
  | [] => if intPart.isEmpty then none else some (digitsToNat intPart)
  | '.' :: frac =>
      if frac.all Char.isDigit && !(intPart.isEmpty && frac.isEmpty) then
        some ((digitsToNat intPart : ℚ) + (digitsToNat frac : ℚ) / 10 ^ frac.length)
      else none
  | _ => none

/-- Strict numeric coercion of a string, as `float(s)` /
`pd.to_numeric(s, errors='coerce')` on plain decimal literals: optional
sign, digits, optional fractional part.  Anything else fails. -/
def parseRat (s : String) : Option ℚ :=
  match s.data with
  | '-' :: rest => (parseUnsigned rest).map (fun q => -q)
  | '+' :: rest => parseUnsigned rest
  | cs => parseUnsigned cs

/-- Numeric coercion of one cell: numbers coerce to themselves, strings
go through the strict parser, missing stays missing. -/
def Cell.numCoerce : Cell → Option ℚ
  | .missing => none
  | .num q => some q
  | .str s => parseRat s

/-! ### consistency.py -/

/-- `series.notna().sum()`: number of non-missing cells. -/
def nonMissingCount (cells : List Cell) : ℕ :=
  (cells.filter fun c => !c.isna).length

/-- `count_inconsistent_numeric` (consistency.py lines 7-14): non-missing
cells whose strict numeric coercion fails. -/
def count_inconsistent_numeric (cells : List Cell) : ℕ :=
  (cells.filter fun c => !c.isna && c.numCoerce.isNone).length

/-- `count_inconsistent_datetime` (consistency.py lines 16-23): non-missing
cells the datetime parser (oracle `dtOK`) rejects. -/
def count_inconsistent_datetime (dtOK : Cell → Bool) (cells : List Cell) : ℕ :=
  (cells.filter fun c => !c.isna && !dtOK c).length

/-- Inferred column type of consistency.py `main`. -/
inductive CType where
  | numeric : CType
  | datetime : CType
  | other : CType
deriving DecidableEq, Repr

/-- Type classification of consistency.py `main` (lines 50-60): numeric
dtype wins outright; otherwise datetime when the column has a non-missing
value and datetime-parse failures are strictly fewer than non-missing
values; otherwise other. -/
def classify (dtOK : Cell → Bool) (col : Column) : CType :=
  match col.dtype with
  | DType.numericD => CType.numeric
  | DType.objectD =>
      if 0 < nonMissingCount col.cells ∧
          count_inconsistent_datetime dtOK col.cells < nonMissingCount col.cells then
        CType.datetime
      else
        CType.other

/-- Per-column inconsistent count of consistency.py `main`: dispatch on
the classified type, with `other` always consistent. -/
def inconsistentCount (dtOK : Cell → Bool) (col : Column) : ℕ :=
  match classify dtOK col with
  | CType.numeric => count_inconsistent_numeric col.cells
  | CType.datetime => count_inconsistent_datetime dtOK col.cells
  | CType.other => 0

/-- `consistency_pct` (consistency.py line 64):
`(total_rows - inc_count) / total_rows * 100`, guarded to 0 when the
frame has no rows. -/
def consistencyPct (totalRows inc : ℕ) : ℚ :=
  if 0 < totalRows then ((totalRows : ℚ) - (inc : ℚ)) / (totalRows : ℚ) * 100 else 0

/-- Overall consistency (consistency.py lines 68-70):
`(total_cells - overall_inconsistent) / total_cells * 100` over
`total_cells = rows * columns`, guarded to 0 on an empty frame. -/
def overallConsistency (dtOK : Cell → Bool) (ds : Dataset) : ℚ :=
  let tc := ds.nrows * ds.cols.length
  let inc := (ds.cols.map fun col => inconsistentCount dtOK col).sum
  if 0 < tc then ((tc : ℚ) - (inc : ℚ)) / (tc : ℚ) * 100 else 0

/-! ### completeness.py -/

/-- Python regex `\s` on the ASCII range: space, tab, newline, carriage
return, vertical tab, form feed. -/
def isPySpace (c : Char) : Bool :=
  c = ' ' || c = '\t' || c = '\n' || c = '\r' || c = '\x0b' || c = '\x0c'

/-- A present string cell matching `^\s*$`: empty or whitespace-only. -/
def Cell.isBlank : Cell → Bool
  | .str s => s.data.all isPySpace
  | _ => false

/-- `df.replace(r'^\s*$', pd.NA, regex=True)` on one cell: blank strings
become the missing marker, everything else is untouched. -/
def normalizeCell (c : Cell) : Cell :=
  if c.isBlank then Cell.missing else c

/-- Missing count seen by completeness.py: NA cells after blank-string
normalization. -/
def missingCountC (cells : List Cell) : ℕ :=
  ((cells.map normalizeCell).filter Cell.isna).length

/-- Non-missing count seen by completeness.py after normalization. -/
def notnaCountC (cells : List Cell) : ℕ :=
  ((cells.map normalizeCell).filter fun c => !c.isna).length

/-- Per-column completeness (completeness.py line 27):
`df.notna().mean() * 100` after normalization.  The pandas mean of an
empty column is NaN, modelled as `none`. -/
def colCompleteness (cells : List Cell) : Option ℚ :=
  if cells.length = 0 then none
  else some ((notnaCountC cells : ℚ) / (cells.length : ℚ) * 100)

/-- Overall completeness (completeness.py lines 31-33):
`non_null_cells / total_cells * 100` with `total_cells = df.size =
rows * columns`; with zero cells pandas/numpy yields NaN, modelled as
`none`. -/
def overallCompleteness (ds : Dataset) : Option ℚ :=
  let tc := ds.nrows * ds.cols.length
  let nn := (ds.cols.map fun col => notnaCountC col.cells).sum
  if tc = 0 then none else some ((nn : ℚ) / (tc : ℚ) * 100)

/-! ### Accuracy.py -/

/-- Coerce every cell of a list to a number, failing if any single cell
fails (the per-element behaviour of `.astype(float)` on an object
array). -/
def coerceList : List Cell → Option (List ℚ)
  | [] => some []
  | c :: cs =>
      match c.numCoerce with
      | none => none
      | some q =>
          match coerceList cs with
          | none => none
          | some qs => some (q :: qs)

/-- `series.dropna().astype(float)` (Accuracy.py line 13): drop missing
cells, then coerce all remaining cells or fail as a whole. -/
def coerceAll (cells : List Cell) : Option (List ℚ) :=
  coerceList (cells.filter fun c => !c.isna)

/-- Population mean `arr.mean()` (ℚ division; `popMean [] = 0` since
division by zero is 0 in ℚ, but the empty case is guarded before use). -/
def popMean (arr : List ℚ) : ℚ :=
  arr.sum / (arr.length : ℚ)

/-- Population variance, the square of `arr.std(ddof=0)`: divisor N. -/
def popVar (arr : List ℚ) : ℚ :=
  ((arr.map fun x => (x - popMean arr) ^ 2).sum) / (arr.length : ℚ)

/-- The source tests `|x - mean| / std > z_thresh` with
`std = sqrt(popVar)`.  For `popVar > 0` this is equivalent to
`z_thresh < 0 ∨ z_thresh² · popVar < (x - mean)²`, which avoids the
irrational square root; the equivalence with the real-valued z-score
test is proved below. -/
def zExceeds (x mean v zt : ℚ) : Bool :=
  zt < 0 || zt ^ 2 * v < (x - mean) ^ 2

/-- `count_outliers` (Accuracy.py lines 7-23): 0 when whole-column float
coercion fails, when no values remain after dropping missing, or when the
population standard deviation is zero; otherwise the number of values
whose absolute z-score strictly exceeds the threshold. -/
def count_outliers (cells : List Cell) (zt : ℚ) : ℕ :=
  match coerceAll cells with
  | none => 0
  | some arr =>
      if arr.length = 0 then 0
      else if popVar arr = 0 then 0
      else (arr.filter fun x => zExceeds x (popMean arr) (popVar arr) zt).length

/-- `missing` of Accuracy.py `main` (line 49): `df[col].isna().sum()`,
with no blank-string normalization. -/
def missingCountA (cells : List Cell) : ℕ :=
  (cells.filter Cell.isna).length

/-- `drift_fail` (Accuracy.py line 51): no baseline is provided, so the
count is always 0. -/
def driftFail : ℕ := 0

/-- `correct = total_rows - missing - outliers - drift_fail`
(Accuracy.py line 52), as a signed integer: the source does not clamp. -/
def correctCount (totalRows : ℕ) (cells : List Cell) (zt : ℚ) : ℤ :=
  (totalRows : ℤ) - (missingCountA cells : ℤ) - (count_outliers cells zt : ℤ) - (driftFail : ℤ)

/-- `accuracy = (correct / total_rows) * 100 if total_rows > 0 else 0.0`
(Accuracy.py line 53). -/
def accuracyPct (totalRows : ℕ) (cells : List Cell) (zt : ℚ) : ℚ :=
  if 0 < totalRows then ((correctCount totalRows cells zt : ℚ) / (totalRows : ℚ)) * 100 else 0

/-- Overall accuracy (Accuracy.py lines 63-69): correct cells over
`total_cells = rows * columns`, guarded to 0 on an empty frame. -/
def overallAccuracy (ds : Dataset) (zt : ℚ) : ℚ :=
  let tc := ds.nrows * ds.cols.length
  let miss := (ds.cols.map fun col => missingCountA col.cells).sum
  let outl := (ds.cols.map fun col => count_outliers col.cells zt).sum
  let correct : ℤ := (tc : ℤ) - (miss : ℤ) - (outl : ℤ)
  if 0 < tc then ((correct : ℚ) / (tc : ℚ)) * 100 else 0

/-- Convenience constructor: a numeric-dtype column from exact values. -/
def numCol (qs : List ℚ) : List Cell :=
  qs.map Cell.num

/-! ### Helper lemmas -/

lemma popVar_nonneg (arr : List ℚ) : 0 ≤ popVar arr := by
  unfold popVar
  apply div_nonneg
  · apply List.sum_nonneg
    intro x hx
    simp only [List.mem_map] at hx
    obtain ⟨y, _, rfl⟩ := hx
    positivity
  · positivity

/-- For positive variance, the square-free outlier test coincides with
the source's test on the real-valued z-score `|x - μ| / sqrt v`. -/
lemma zExceeds_iff_real (x μ v zt : ℚ) (hv : 0 < v) :
    zExceeds x μ v zt = true ↔ (zt : ℝ) < |(x : ℝ) - (μ : ℝ)| / Real.sqrt (v : ℝ) := by
  have hvR : (0 : ℝ) < (v : ℝ) := by exact_mod_cast hv
  have hs : 0 < Real.sqrt (v : ℝ) := Real.sqrt_pos.mpr hvR
  have hs2 : Real.sqrt (v : ℝ) ^ 2 = (v : ℝ) := Real.sq_sqrt hvR.le
  rw [lt_div_iff₀ hs]
  simp only [zExceeds, Bool.or_eq_true, decide_eq_true_eq]
  constructor
  · rintro (h | h)
    · have h0 : (zt : ℝ) < 0 := by exact_mod_cast h
      calc (zt : ℝ) * Real.sqrt (v : ℝ) < 0 := mul_neg_of_neg_of_pos h0 hs
        _ ≤ |(x : ℝ) - (μ : ℝ)| := abs_nonneg _
    · have hR : (zt : ℝ) ^ 2 * (v : ℝ) < ((x : ℝ) - (μ : ℝ)) ^ 2 := by exact_mod_cast h
      rcases lt_or_le zt 0 with hzt | hzt
      · have h0 : (zt : ℝ) < 0 := by exact_mod_cast hzt
        calc (zt : ℝ) * Real.sqrt (v : ℝ) < 0 := mul_neg_of_neg_of_pos h0 hs
          _ ≤ |(x : ℝ) - (μ : ℝ)| := abs_nonneg _
      · have hztR : (0 : ℝ) ≤ (zt : ℝ) := by exact_mod_cast hzt
        have hsq : ((zt : ℝ) * Real.sqrt (v : ℝ)) ^ 2 < |(x : ℝ) - (μ : ℝ)| ^ 2 := by
          rw [mul_pow, hs2, sq_abs]
          exact hR
        exact (pow_lt_pow_iff_left₀ (mul_nonneg hztR hs.le) (abs_nonneg _) two_ne_zero).mp hsq
  · intro h
    rcases lt_or_le zt 0 with hzt | hzt
    · exact Or.inl hzt
    · right
      have hztR : (0 : ℝ) ≤ (zt : ℝ) := by exact_mod_cast hzt
      have hsq : ((zt : ℝ) * Real.sqrt (v : ℝ)) ^ 2 < |(x : ℝ) - (μ : ℝ)| ^ 2 :=
        pow_lt_pow_left₀ h (mul_nonneg hztR hs.le) two_ne_zero
      rw [mul_pow, hs2, sq_abs] at hsq
      exact_mod_cast hsq

lemma coerceList_length (cs : List Cell) (arr : List ℚ) (h : coerceList cs = some arr) :
    arr.length = cs.length := by
  induction cs generalizing arr with
  | nil => simp [coerceList] at h; simp [← h]
  | cons c cs ih =>
      unfold coerceList at h
      cases hc : c.numCoerce with
      | none => rw [hc] at h; simp at h
      | some q =>
          rw [hc] at h
          cases hr : coerceList cs with
          | none => rw [hr] at h; simp at h
          | some qs =>
              rw [hr] at h
              simp only [Option.some.injEq] at h
              subst h
              simp [ih qs hr]

lemma coerceAll_length (cells : List Cell) (arr : List ℚ) (h : coerceAll cells = some arr) :
    arr.length = nonMissingCount cells :=
  coerceList_length _ _ h

lemma popVar_nil : popVar [] = 0 := by
  simp [popVar, popMean]

lemma count_outliers_of_some (cells : List Cell) (zt : ℚ) (arr : List ℚ)
    (hc : coerceAll cells = some arr) :
    count_outliers cells zt =
      if arr.length = 0 then 0
      else if popVar arr = 0 then 0
      else (arr.filter fun x => zExceeds x (popMean arr) (popVar arr) zt).length := by
  unfold count_outliers
  rw [hc]

lemma count_outliers_of_none (cells : List Cell) (zt : ℚ)
    (hc : coerceAll cells = none) :
    count_outliers cells zt = 0 := by
  unfold count_outliers
  rw [hc]

lemma count_outliers_le_nonMissing (cells : List Cell) (zt : ℚ) :
    count_outliers cells zt ≤ nonMissingCount cells := by
  cases hc : coerceAll cells with
  | none => simp [count_outliers_of_none cells zt hc]
  | some arr =>
      rw [← coerceAll_length cells arr hc, count_outliers_of_some cells zt arr hc]
      by_cases h0 : arr.length = 0
      · simp [h0]
      · rw [if_neg h0]
        by_cases hv : popVar arr = 0
        · simp [hv]
        · rw [if_neg hv]
          exact List.length_filter_le _ _

lemma missingCountA_add_nonMissing (cells : List Cell) :
    missingCountA cells + nonMissingCount cells = cells.length := by
  induction cells with
  | nil => rfl
  | cons c cs ih =>
      cases c <;> simp [missingCountA, nonMissingCount, Cell.isna, List.filter] at ih ⊢ <;> omega

lemma normalizeCell_isna (c : Cell) :
    (normalizeCell c).isna = (c.isna || c.isBlank) := by
  cases c with
  | missing => simp [normalizeCell, Cell.isBlank, Cell.isna]
  | num q => simp [normalizeCell, Cell.isBlank, Cell.isna]
  | str s =>
      by_cases h : (Cell.str s).isBlank
      · simp [normalizeCell, h, Cell.isna]
      · simp [normalizeCell, h, Cell.isna]

lemma notnaCountC_append (l1 l2 : List Cell) :
    notnaCountC (l1 ++ l2) = notnaCountC l1 + notnaCountC l2 := by
  simp [notnaCountC, List.map_append, List.filter_append, List.length_append]

lemma notnaCountC_join (L : List (List Cell)) :
    notnaCountC L.flatten = (L.map notnaCountC).sum := by
  induction L with
  | nil => rfl
  | cons l ls ih => simp [List.flatten, notnaCountC_append, ih]

/-- A sample two-column, two-row frame, used to instantiate dataset-level
theorems. -/
def sampleDs : Dataset :=
  Dataset.mk 2
    [Column.mk DType.objectD [Cell.str "a", Cell.missing],
      Column.mk DType.numericD [Cell.num 1, Cell.num 2]]

/-! ### Claim theorems -/

/-- C1: for a column whose non-missing cells all coerce to float and whose
population variance is nonzero, `count_outliers` returns exactly the number
of coerced values whose absolute real z-score `|x - μ| / σ` (population
mean and population standard deviation, divisor N) strictly exceeds the
threshold; moreover on `[1,2,3,4,100]` with threshold 3 the population
mean is 22 and the count is 0, and on `[10,...,10,1000]` with threshold 3
the z-score of 1000 is exactly 3 (the strict-inequality boundary) and the
count is 0. -/
theorem C1_count_outliers_zscore (cells : List Cell) (zt : ℚ) (arr : List ℚ)
    (hc : coerceAll cells = some arr) (hv : popVar arr ≠ 0) :
    count_outliers cells zt =
      (arr.filter fun x : ℚ =>
        decide ((zt : ℝ) < |(x : ℝ) - (popMean arr : ℝ)| / Real.sqrt (popVar arr : ℝ))).length
    ∧ popMean [1, 2, 3, 4, 100] = 22
    ∧ count_outliers (numCol [1, 2, 3, 4, 100]) 3 = 0
    ∧ count_outliers (numCol [10, 10, 10, 10, 10, 10, 10, 10, 10, 1000]) 3 = 0
    ∧ |(1000 : ℝ) - (popMean [10, 10, 10, 10, 10, 10, 10, 10, 10, 1000] : ℝ)| /
        Real.sqrt ((popVar [10, 10, 10, 10, 10, 10, 10, 10, 10, 1000] : ℚ) : ℝ) = 3 := by
  refine ⟨?_, by norm_num [popMean], ?_, ?_, ?_⟩
  · have hpos : 0 < popVar arr := lt_of_le_of_ne (popVar_nonneg arr) (Ne.symm hv)
    have hne : ¬ arr.length = 0 := by
      intro h0
      rw [List.length_eq_zero] at h0
      rw [h0, popVar_nil] at hv
      exact hv rfl
    rw [count_outliers_of_some cells zt arr hc, if_neg hne, if_neg hv]
    congr 1
    apply List.filter_congr
    intro x hx
    rw [Bool.eq_iff_iff, decide_eq_true_eq]
    exact zExceeds_iff_real x (popMean arr) (popVar arr) zt hpos
  · norm_num [count_outliers, numCol, coerceAll, coerceList, Cell.numCoerce, Cell.isna,
      List.filter, popVar, popMean, zExceeds]
  · norm_num [count_outliers, numCol, coerceAll, coerceList, Cell.numCoerce, Cell.isna,
      List.filter, popVar, popMean, zExceeds]
  · have h1 : popMean [10, 10, 10, 10, 10, 10, 10, 10, 10, 1000] = 109 := by norm_num [popMean]
    have h2 : popVar [10, 10, 10, 10, 10, 10, 10, 10, 10, 1000] = 88209 := by
      norm_num [popVar, popMean]
    rw [h1, h2]
    have h3 : Real.sqrt ((88209 : ℚ) : ℝ) = 297 := by
      rw [show ((88209 : ℚ) : ℝ) = (297 : ℝ) ^ 2 by norm_num]
      exact Real.sqrt_sq (by norm_num)
    rw [h3]
    rw [show |(1000 : ℝ) - ((109 : ℚ) : ℝ)| = 891 by rw [abs_of_pos] <;> norm_num]
    norm_num

/-- Witness for C1 at the concrete column `[1,2,3,100]` with threshold 3. -/
theorem C1_count_outliers_zscore_witness :
    coerceAll (numCol [1, 2, 3, 100]) = some [1, 2, 3, 100]
    ∧ popVar [1, 2, 3, 100] ≠ 0
    ∧ count_outliers (numCol [1, 2, 3, 100]) 3 =
        (([1, 2, 3, 100] : List ℚ).filter fun x : ℚ =>
          decide (((3 : ℚ) : ℝ) <
            |(x : ℝ) - (popMean [1, 2, 3, 100] : ℝ)| /
              Real.sqrt (popVar [1, 2, 3, 100] : ℝ))).length :=
  ⟨by decide, by norm_num [popVar, popMean],
    (C1_count_outliers_zscore (numCol [1, 2, 3, 100]) 3 [1, 2, 3, 100]
      (by decide) (by norm_num [popVar, popMean])).1⟩

/-- C2: `count_outliers` is total, and for every threshold it returns 0
when whole-column float coercion fails, when the column has no non-missing
values, and when the coerced values have zero population variance (zero
population standard deviation). -/
theorem C2_count_outliers_guards (cells : List Cell) (zt : ℚ) :
    (coerceAll cells = none → count_outliers cells zt = 0)
    ∧ (nonMissingCount cells = 0 → count_outliers cells zt = 0)
    ∧ ∀ arr, coerceAll cells = some arr → popVar arr = 0 → count_outliers cells zt = 0 := by
  refine ⟨fun h => count_outliers_of_none cells zt h, ?_, ?_⟩
  · intro h
    cases hc : coerceAll cells with
    | none => exact count_outliers_of_none cells zt hc
    | some arr =>
        rw [count_outliers_of_some cells zt arr hc]
        have hlen := coerceAll_length cells arr hc
        rw [h] at hlen
        simp [hlen]
  · intro arr hc hv
    rw [count_outliers_of_some cells zt arr hc]
    by_cases h0 : arr.length = 0
    · simp [h0]
    · simp [h0, hv]

/-- Witness for C2: a non-coercible column, an all-missing column, and a
constant column each yield 0 outliers at threshold 1/2. -/
theorem C2_count_outliers_guards_witness :
    (coerceAll [Cell.str "abc"] = none ∧ count_outliers [Cell.str "abc"] (1/2) = 0)
    ∧ (nonMissingCount [Cell.missing, Cell.missing] = 0
        ∧ count_outliers [Cell.missing, Cell.missing] (1/2) = 0)
    ∧ (coerceAll (numCol [5, 5, 5]) = some [5, 5, 5] ∧ popVar [5, 5, 5] = 0
        ∧ count_outliers (numCol [5, 5, 5]) (1/2) = 0) :=
  ⟨⟨by decide, (C2_count_outliers_guards [Cell.str "abc"] (1/2)).1 (by decide)⟩,
    ⟨by decide, (C2_count_outliers_guards [Cell.missing, Cell.missing] (1/2)).2.1 (by decide)⟩,
    ⟨by decide, by norm_num [popVar, popMean],
      (C2_count_outliers_guards (numCol [5, 5, 5]) (1/2)).2.2 [5, 5, 5] (by decide)
        (by norm_num [popVar, popMean])⟩⟩

/-- C3: for every datetime oracle and every column, classification is
total and decides: numeric iff the storage dtype is numeric; otherwise
datetime iff the column has a non-missing value and the datetime-parse
failures among non-missing values are strictly fewer than the non-missing
count; otherwise other, and every other-classified column has
inconsistent count 0. -/
theorem C3_classify_decision (dtOK : Cell → Bool) (col : Column) :
    (classify dtOK col = CType.numeric ↔ col.dtype = DType.numericD)
    ∧ (col.dtype ≠ DType.numericD →
        (classify dtOK col = CType.datetime ↔
          0 < nonMissingCount col.cells ∧
            count_inconsistent_datetime dtOK col.cells < nonMissingCount col.cells))
    ∧ (col.dtype ≠ DType.numericD →
        ¬(0 < nonMissingCount col.cells ∧
            count_inconsistent_datetime dtOK col.cells < nonMissingCount col.cells) →
        classify dtOK col = CType.other)
    ∧ (classify dtOK col = CType.other → inconsistentCount dtOK col = 0) := by
  obtain ⟨dt, cells⟩ := col
  cases dt with
  | numericD =>
      refine ⟨by simp [classify], by simp, by simp, ?_⟩
      intro h
      simp [classify] at h
  | objectD =>
      by_cases hcond : 0 < nonMissingCount cells ∧
          count_inconsistent_datetime dtOK cells < nonMissingCount cells
      · refine ⟨by simp [classify, hcond], by simp [classify, hcond], ?_, ?_⟩
        · intro _ hn
          exact absurd hcond hn
        · intro h
          simp [classify, hcond] at h
      · refine ⟨by simp [classify, hcond], by simp [classify, hcond], ?_, ?_⟩
        · intro _ _
          simp [classify, hcond]
        · intro _
          simp [inconsistentCount, classify, hcond]

/-- Witness for C3 at the single-cell string column `["x"]` with a
datetime parser that rejects everything: the column is classified other
and its inconsistent count is 0. -/
theorem C3_classify_decision_witness :
    (Column.mk DType.objectD [Cell.str "x"]).dtype ≠ DType.numericD
    ∧ ¬(0 < nonMissingCount [Cell.str "x"] ∧
        count_inconsistent_datetime (fun _ => false) [Cell.str "x"] <
          nonMissingCount [Cell.str "x"])
    ∧ classify (fun _ => false) (Column.mk DType.objectD [Cell.str "x"]) = CType.other
    ∧ inconsistentCount (fun _ => false) (Column.mk DType.objectD [Cell.str "x"]) = 0 := by
  refine ⟨by decide, by decide, ?_, ?_⟩
  · exact (C3_classify_decision (fun _ => false) (Column.mk DType.objectD [Cell.str "x"])).2.2.1
      (by decide) (by decide)
  · exact (C3_classify_decision (fun _ => false) (Column.mk DType.objectD [Cell.str "x"])).2.2.2
      ((C3_classify_decision (fun _ => false) (Column.mk DType.objectD [Cell.str "x"])).2.2.1
        (by decide) (by decide))

/-- C4 as stated is false on the code: the column `["1","2","abc","4"]`
has object (non-numeric) storage dtype, and consistency.py classifies a
column numeric only on numeric dtype, so this column is not classified
numeric (here shown with a datetime parser that rejects all four strings:
it lands on other with inconsistent count 0, not 1). -/
theorem C4_counterexample :
    classify (fun _ => false)
        (Column.mk DType.objectD
          [Cell.str "1", Cell.str "2", Cell.str "abc", Cell.str "4"]) ≠ CType.numeric
    ∧ inconsistentCount (fun _ => false)
        (Column.mk DType.objectD
          [Cell.str "1", Cell.str "2", Cell.str "abc", Cell.str "4"]) = 0 := by
  decide

/-- C4 amended: the column `["1","2","abc","4"]` is never classified
numeric (for every datetime oracle, since its dtype is object);
nevertheless `count_inconsistent_numeric` on it returns 1 — only `"abc"`
fails strict numeric coercion — and the consistency-percentage formula at
4 rows and that count yields 75. -/
theorem C4_amended_numeric_path :
    (∀ dtOK : Cell → Bool,
      classify dtOK
          (Column.mk DType.objectD
            [Cell.str "1", Cell.str "2", Cell.str "abc", Cell.str "4"]) ≠ CType.numeric)
    ∧ count_inconsistent_numeric
        [Cell.str "1", Cell.str "2", Cell.str "abc", Cell.str "4"] = 1
    ∧ consistencyPct 4
        (count_inconsistent_numeric
          [Cell.str "1", Cell.str "2", Cell.str "abc", Cell.str "4"]) = 75 := by
  refine ⟨?_, by decide, ?_⟩
  · intro dtOK
    simp only [classify]
    split <;> simp
  · rw [show count_inconsistent_numeric
        [Cell.str "1", Cell.str "2", Cell.str "abc", Cell.str "4"] = 1 from by decide]
    norm_num [consistencyPct]

/-- C5: the completeness evaluator counts as missing exactly the cells
that are originally missing or hold an empty/whitespace-only string
(blank-string normalization precedes counting); on
`["a", "", "  ", "b"]` the missing count is 2 and the completeness
percentage is 50. -/
theorem C5_completeness_missing (cells : List Cell) :
    missingCountC cells = (cells.filter fun c => c.isna || c.isBlank).length
    ∧ missingCountC [Cell.str "a", Cell.str "", Cell.str "  ", Cell.str "b"] = 2
    ∧ colCompleteness [Cell.str "a", Cell.str "", Cell.str "  ", Cell.str "b"] = some 50 := by
  refine ⟨?_, by decide, ?_⟩
  · induction cells with
    | nil => rfl
    | cons c cs ih =>
        simp only [missingCountC, List.map_cons, List.filter_cons, normalizeCell_isna] at ih ⊢
        cases h : (c.isna || c.isBlank) with
        | false => simpa [h] using ih
        | true => simpa [h] using ih
  · have h : notnaCountC [Cell.str "a", Cell.str "", Cell.str "  ", Cell.str "b"] = 2 := by
      decide
    simp only [colCompleteness, h]
    norm_num

/-- C10: a well-formed numeric-dtype column (cells are numbers or the
missing marker) always has `count_inconsistent_numeric` 0, hence
inconsistent count 0 under classification — numeric dtype being the only
way to be classified numeric — and consistency percentage 100 whenever
the row count is positive. -/
theorem C10_numeric_dtype_consistent (dtOK : Cell → Bool) (col : Column)
    (hd : col.dtype = DType.numericD) (hwf : col.wfDtype = true)
    (totalRows : ℕ) (hrows : 0 < totalRows) :
    count_inconsistent_numeric col.cells = 0
    ∧ inconsistentCount dtOK col = 0
    ∧ consistencyPct totalRows (inconsistentCount dtOK col) = 100 := by
  obtain ⟨dt, cells⟩ := col
  simp only at hd
  subst hd
  simp only [Column.wfDtype, List.all_eq_true] at hwf
  have hz : count_inconsistent_numeric cells = 0 := by
    simp only [count_inconsistent_numeric, List.length_eq_zero, List.filter_eq_nil_iff]
    intro c hcmem
    have := hwf c hcmem
    cases c with
    | missing => simp [Cell.isna]
    | num q => simp [Cell.numCoerce]
    | str s => simp [Cell.isNumericish] at this
  have hinc : inconsistentCount dtOK (Column.mk DType.numericD cells) = 0 := by
    simp [inconsistentCount, classify, hz]
  refine ⟨hz, hinc, ?_⟩
  rw [hinc, consistencyPct, if_pos hrows]
  rw [Nat.cast_zero, sub_zero, div_self (by positivity)]
  norm_num

/-- Witness for C10 at the numeric column `[1.0, missing]` with 2 rows. -/
theorem C10_numeric_dtype_consistent_witness :
    (Column.mk DType.numericD [Cell.num 1, Cell.missing]).dtype = DType.numericD
    ∧ (Column.mk DType.numericD [Cell.num 1, Cell.missing]).wfDtype = true
    ∧ (0 : ℕ) < 2
    ∧ (count_inconsistent_numeric [Cell.num 1, Cell.missing] = 0
        ∧ inconsistentCount (fun _ => false) (Column.mk DType.numericD [Cell.num 1, Cell.missing]) = 0
        ∧ consistencyPct 2
            (inconsistentCount (fun _ => false)
              (Column.mk DType.numericD [Cell.num 1, Cell.missing])) = 100) :=
  ⟨by decide, by decide, by decide,
    C10_numeric_dtype_consistent (fun _ => false)
      (Column.mk DType.numericD [Cell.num 1, Cell.missing]) rfl (by decide) 2 (by decide)⟩

/-- C6 as stated is false on the code: on a dataset with zero rows the
completeness evaluator does not return a defined 0% — the pandas mean of
an empty column and the overall ratio over zero cells are NaN (modelled
`none`), unlike the guarded accuracy and consistency percentages. -/
theorem C6_counterexample :
    colCompleteness ([] : List Cell) = none
    ∧ colCompleteness ([] : List Cell) ≠ some 0
    ∧ overallCompleteness (Dataset.mk 0 [Column.mk DType.objectD []]) = none := by
  refine ⟨rfl, ?_, rfl⟩
  intro h
  simp [colCompleteness] at h

/-- C6 amended: on a dataset with zero rows or zero columns, accuracy and
consistency return defined 0% metrics per column and overall (no division
fault — the guards apply), while completeness returns an undefined (NaN,
modelled `none`) value per column and overall rather than 0%. -/
theorem C6_empty_dataset (ds : Dataset) (hempty : ds.nrows = 0 ∨ ds.cols = [])
    (hwf : ∀ col ∈ ds.cols, col.cells.length = ds.nrows) (zt : ℚ) (dtOK : Cell → Bool) :
    overallAccuracy ds zt = 0
    ∧ overallConsistency dtOK ds = 0
    ∧ overallCompleteness ds = none
    ∧ (∀ col ∈ ds.cols, accuracyPct ds.nrows col.cells zt = 0)
    ∧ (∀ col ∈ ds.cols, consistencyPct ds.nrows (inconsistentCount dtOK col) = 0)
    ∧ (∀ col ∈ ds.cols, colCompleteness col.cells = none) := by
  have htc : ds.nrows * ds.cols.length = 0 := by
    cases hempty with
    | inl h => rw [h, Nat.zero_mul]
    | inr h => rw [h]; simp
  have hr0 : ∀ col ∈ ds.cols, ds.nrows = 0 := by
    intro col hcol
    cases hempty with
    | inl h => exact h
    | inr h => rw [h] at hcol; cases hcol
  refine ⟨?_, ?_, ?_, ?_, ?_, ?_⟩
  · simp only [overallAccuracy, htc]
    norm_num
  · simp only [overallConsistency, htc]
    norm_num
  · simp only [overallCompleteness, htc]
    norm_num
  · intro col hcol
    simp [accuracyPct, hr0 col hcol]
  · intro col hcol
    simp [consistencyPct, hr0 col hcol]
  · intro col hcol
    have : col.cells.length = 0 := by rw [hwf col hcol, hr0 col hcol]
    simp [colCompleteness, this]

/-- Witness for C6 (amended) at the dataset with one column and zero rows. -/
theorem C6_empty_dataset_witness :
    ((Dataset.mk 0 [Column.mk DType.objectD []]).nrows = 0
      ∨ (Dataset.mk 0 [Column.mk DType.objectD []]).cols = [])
    ∧ (∀ col ∈ (Dataset.mk 0 [Column.mk DType.objectD []]).cols,
        col.cells.length = (Dataset.mk 0 [Column.mk DType.objectD []]).nrows)
    ∧ overallAccuracy (Dataset.mk 0 [Column.mk DType.objectD []]) 3 = 0
    ∧ overallConsistency (fun _ => false) (Dataset.mk 0 [Column.mk DType.objectD []]) = 0
    ∧ overallCompleteness (Dataset.mk 0 [Column.mk DType.objectD []]) = none :=
  ⟨Or.inl rfl, by decide,
    (C6_empty_dataset (Dataset.mk 0 [Column.mk DType.objectD []]) (Or.inl rfl)
      (by decide) 3 (fun _ => false)).1,
    (C6_empty_dataset (Dataset.mk 0 [Column.mk DType.objectD []]) (Or.inl rfl)
      (by decide) 3 (fun _ => false)).2.1,
    (C6_empty_dataset (Dataset.mk 0 [Column.mk DType.objectD []]) (Or.inl rfl)
      (by decide) 3 (fun _ => false)).2.2.1⟩

/-- C7 as stated is false on the code in one respect: no input makes
`correct_count` negative.  Outliers are counted only among non-missing
values (the series is dropna'd before the z-scores), so the missing and
outlier counts can never overlap or together exceed the row count. -/
theorem C7_counterexample :
    ¬ ∃ (cells : List Cell) (zt : ℚ), correctCount cells.length cells zt < 0 := by
  rintro ⟨cells, zt, h⟩
  have h1 := count_outliers_le_nonMissing cells zt
  have h2 := missingCountA_add_nonMissing cells
  unfold correctCount driftFail at h
  omega

/-- C7 amended: per column, `drift_fail` is 0,
`correct = total_rows - missing - outliers - drift_fail` with no clamping
at 0, and `accuracy_pct = correct / total_rows * 100` when the row count
is positive and 0 otherwise; the unclamped value is in fact never
negative, because outliers are counted only among non-missing values. -/
theorem C7_accuracy_formula (cells : List Cell) (totalRows : ℕ)
    (hwf : cells.length = totalRows) (zt : ℚ) :
    driftFail = 0
    ∧ correctCount totalRows cells zt =
        (totalRows : ℤ) - (missingCountA cells : ℤ) - (count_outliers cells zt : ℤ) -
          (driftFail : ℤ)
    ∧ accuracyPct totalRows cells zt =
        (if 0 < totalRows then ((correctCount totalRows cells zt : ℚ) / (totalRows : ℚ)) * 100
          else 0)
    ∧ 0 ≤ correctCount totalRows cells zt := by
  subst hwf
  refine ⟨rfl, rfl, rfl, ?_⟩
  have h1 := count_outliers_le_nonMissing cells zt
  have h2 := missingCountA_add_nonMissing cells
  unfold correctCount driftFail
  omega

/-- Witness for C7 (amended) at the column `[5.0, missing]` with 2 rows. -/
theorem C7_accuracy_formula_witness :
    ([Cell.num 5, Cell.missing] : List Cell).length = 2
    ∧ 0 ≤ correctCount 2 [Cell.num 5, Cell.missing] 3 :=
  ⟨rfl, (C7_accuracy_formula [Cell.num 5, Cell.missing] 2 rfl 3).2.2.2⟩

/-- C8 as stated is false on the code at one degenerate input: the empty
column (N = 0 cells, vacuously all missing) has outlier and inconsistent
counts 0, but its completeness percentage is the pandas mean of an empty
column — NaN (modelled `none`), not 0.0. -/
theorem C8_counterexample :
    (∀ c ∈ ([] : List Cell), c = Cell.missing)
    ∧ count_outliers ([] : List Cell) 3 = 0
    ∧ colCompleteness ([] : List Cell) = none
    ∧ colCompleteness ([] : List Cell) ≠ some 0 := by
  refine ⟨by simp, rfl, rfl, ?_⟩
  intro h
  simp [colCompleteness] at h

/-- C8 amended: every nonempty column whose N cells are all missing has
outlier count 0 (for every threshold), inconsistent count 0 (for every
dtype and datetime oracle), and completeness percentage 0. -/
theorem C8_all_missing (cells : List Cell) (hne : cells ≠ [])
    (hall : ∀ c ∈ cells, c = Cell.missing) (zt : ℚ) (dtOK : Cell → Bool) (dt : DType) :
    count_outliers cells zt = 0
    ∧ inconsistentCount dtOK (Column.mk dt cells) = 0
    ∧ colCompleteness cells = some 0 := by
  have hfil : (cells.filter fun c => !c.isna) = [] := by
    rw [List.filter_eq_nil_iff]
    intro c hc
    rw [hall c hc]
    simp [Cell.isna]
  have hnm : nonMissingCount cells = 0 := by simp [nonMissingCount, hfil]
  refine ⟨?_, ?_, ?_⟩
  · have hc : coerceAll cells = some [] := by simp [coerceAll, hfil, coerceList]
    rw [count_outliers_of_some cells zt [] hc]
    simp
  · have hn : count_inconsistent_numeric cells = 0 := by
      simp only [count_inconsistent_numeric, List.length_eq_zero, List.filter_eq_nil_iff]
      intro c hc
      rw [hall c hc]
      simp [Cell.isna]
    cases dt with
    | numericD => simp [inconsistentCount, classify, hn]
    | objectD => simp [inconsistentCount, classify, hnm]
  · have hlen : cells.length ≠ 0 := fun h => hne (List.length_eq_zero.mp h)
    have hnz : notnaCountC cells = 0 := by
      simp only [notnaCountC, List.length_eq_zero, List.filter_eq_nil_iff]
      intro c hc
      simp only [List.mem_map] at hc
      obtain ⟨c0, hc0, rfl⟩ := hc
      rw [hall c0 hc0]
      simp [normalizeCell, Cell.isBlank, Cell.isna]
    simp [colCompleteness, hlen, hnz]

/-- Witness for C8 (amended) at the column of two missing cells. -/
theorem C8_all_missing_witness :
    ([Cell.missing, Cell.missing] : List Cell) ≠ []
    ∧ (∀ c ∈ ([Cell.missing, Cell.missing] : List Cell), c = Cell.missing)
    ∧ (count_outliers [Cell.missing, Cell.missing] 3 = 0
        ∧ inconsistentCount (fun _ => false)
            (Column.mk DType.objectD [Cell.missing, Cell.missing]) = 0
        ∧ colCompleteness [Cell.missing, Cell.missing] = some 0) :=
  ⟨by decide, by decide,
    C8_all_missing [Cell.missing, Cell.missing] (by decide) (by decide) 3
      (fun _ => false) DType.objectD⟩

/-- C9: on a nonempty frame the overall percentages are cell-weighted
over `total_cells = rows * columns`: overall completeness is the total
non-missing cell count (over the concatenation of all columns) divided by
the total cell count times 100, and overall consistency is the total cell
count minus the summed per-column inconsistent counts, divided by the
total cell count, times 100. -/
theorem C9_overall_cellweighted (dtOK : Cell → Bool) (ds : Dataset)
    (h : 0 < ds.nrows * ds.cols.length) :
    overallCompleteness ds =
      some ((notnaCountC (ds.cols.map fun col => col.cells).flatten : ℚ) /
        ((ds.nrows : ℚ) * (ds.cols.length : ℚ)) * 100)
    ∧ overallConsistency dtOK ds =
        (((ds.nrows : ℚ) * (ds.cols.length : ℚ)) -
          (((ds.cols.map fun col => inconsistentCount dtOK col).sum : ℕ) : ℚ)) /
          ((ds.nrows : ℚ) * (ds.cols.length : ℚ)) * 100 := by
  have htc : ds.nrows * ds.cols.length ≠ 0 := Nat.pos_iff_ne_zero.mp h
  constructor
  · simp only [overallCompleteness, if_neg htc]
    rw [notnaCountC_join, List.map_map]
    push_cast
    rfl
  · simp only [overallConsistency, if_pos h]
    push_cast
    rfl

/-- Witness for C9 at a concrete two-column, two-row frame. -/
theorem C9_overall_cellweighted_witness :
    0 < sampleDs.nrows * sampleDs.cols.length
    ∧ overallCompleteness sampleDs =
        some ((notnaCountC (sampleDs.cols.map fun col => col.cells).flatten : ℚ) /
          ((sampleDs.nrows : ℚ) * (sampleDs.cols.length : ℚ)) * 100) :=
  ⟨by decide, (C9_overall_cellweighted (fun _ => false) sampleDs (by decide)).1⟩

end DataQuality
